import Mathlib

/-!
Verification of the braintree_python transport layer
(`braintree/util/http.py`) and of
`braintree/sub_merchant_account/business_details.py`.

The Python source is shallowly embedded: the transport call itself
(`http_strategy.http_do`) is abstracted as an input of type
`Except TransportException (Nat × String)` (either a thrown transport
exception or a `(status, body)` pair), and each Python function that can
`raise` returns its raised error as data.  External collaborators
(the `requests` exception hierarchy, the XML/JSON codecs, the
configuration object) are embedded as tagged data, never interpreted
beyond what the transport code observes of them.
-/

set_option autoImplicit false

namespace Braintree

/-- The `Http.ContentType` string constants from the source. -/
def ContentType.Xml : String := "application/xml"

/-- `Http.ContentType.Multipart` constant. -/
def ContentType.Multipart : String := "multipart/form-data"

/-- `Http.ContentType.Json` constant. -/
def ContentType.Json : String := "application/json"

/-- Modelled from the spec: the `requests` exception classes that
`Http.handle_exception` tests with `isinstance`, in the order they are
tested.  `requests.exceptions` is a third-party collaborator; only the
class identities matter to the transport code. -/
inductive ExcClass where
  | readTimeoutC
  | connectTimeoutC
  | connectionErrorC
  | httpErrorC
  | timeoutC
  deriving DecidableEq

/-- Modelled from the spec: the concrete kinds of exception a transport
call can throw, one per leaf of the `requests` hierarchy the code
distinguishes, plus `other` for any unrelated exception. -/
inductive ExcKind where
  | readTimeout
  | connectTimeout
  | connectionError
  | httpError
  | timeout
  | other
  deriving DecidableEq

/-- Modelled from the spec: the documented `requests` exception class
hierarchy, as an `isinstance` relation.  `ReadTimeout` subclasses
`Timeout`; `ConnectTimeout` subclasses both `ConnectionError` and
`Timeout`. -/
def isinst : ExcKind → ExcClass → Bool
  | .readTimeout, .readTimeoutC => true
  | .readTimeout, .timeoutC => true
  | .connectTimeout, .connectTimeoutC => true
  | .connectTimeout, .connectionErrorC => true
  | .connectTimeout, .timeoutC => true
  | .connectionError, .connectionErrorC => true
  | .httpError, .httpErrorC => true
  | .timeout, .timeoutC => true
  | _, _ => false

/-- An exception thrown by the underlying transport: its dynamic class
(kind) plus an uninterpreted payload standing for the exception object's
contents. -/
structure TransportException where
  kind : ExcKind
  detail : String
  deriving DecidableEq

/-- The payload handed to `UnexpectedError`: the source passes either a
string (status path) or the caught exception object (transport path). -/
inductive ErrPayload where
  | ofString (s : String)
  | ofExc (e : TransportException)
  deriving DecidableEq

/-- The error taxonomy raised by the transport layer, one constructor per
exception class in `braintree.exceptions` that `http.py` raises, with the
constructor-argument shapes of the source (`AuthorizationError(message)`,
`UnexpectedError(...)`, and the wrapped-exception errors each carry the
caught exception). -/
inductive HttpError where
  | authenticationError
  | authorizationError (message : Option String)
  | notFoundError
  | requestTimeoutError
  | upgradeRequiredError
  | tooManyRequestsError
  | serverError
  | serviceUnavailableError
  | gatewayTimeoutError
  | unexpectedError (payload : ErrPayload)
  | readTimeoutError (e : TransportException)
  | connectTimeoutError (e : TransportException)
  | connectionError (e : TransportException)
  | invalidResponseError (e : TransportException)
  | timeoutError (e : TransportException)
  deriving DecidableEq

/-- `Http.is_error_status`: `status not in [200, 201, 204, 422]`. -/
def is_error_status (status : Nat) : Bool :=
  !([200, 201, 204, 422].contains status)

/-- `Http.raise_exception_from_status(status, message=None)`: the raised
exception, returned as data (every branch of the source raises). -/
def raise_exception_from_status (status : Nat) (message : Option String) : HttpError :=
  if status = 401 then .authenticationError
  else if status = 403 then .authorizationError message
  else if status = 404 then .notFoundError
  else if status = 408 then .requestTimeoutError
  else if status = 426 then .upgradeRequiredError
  else if status = 429 then .tooManyRequestsError
  else if status = 500 then .serverError
  else if status = 503 then .serviceUnavailableError
  else if status = 504 then .gatewayTimeoutError
  else .unexpectedError (.ofString ("Unexpected HTTP_RESPONSE " ++ Nat.repr status))

/-- `Http.handle_exception`: the chain of `isinstance` tests.  Each
branch of the source raises; a branch that raises yields `some error`,
and `none` would mean the Python function fell through without raising
(which no branch does, the final `else` raising `UnexpectedError`). -/
def handle_exception (exception : TransportException) : Option HttpError :=
  if isinst exception.kind .readTimeoutC then some (.readTimeoutError exception)
  else if isinst exception.kind .connectTimeoutC then some (.connectTimeoutError exception)
  else if isinst exception.kind .connectionErrorC then some (.connectionError exception)
  else if isinst exception.kind .httpErrorC then some (.invalidResponseError exception)
  else if isinst exception.kind .timeoutC then some (.timeoutError exception)
  else some (.unexpectedError (.ofExc exception))

/-- Python `bytes.strip` / `str.strip` whitespace set:
space, tab, newline, carriage return, vertical tab, form feed. -/
def pyIsSpace (c : Char) : Bool :=
  c = ' ' || c = '\t' || c = '\n' || c = '\r' || c = '\x0b' || c = '\x0c'

/-- Python `.strip()` on a character list: drop whitespace from both ends. -/
def pyStripList (l : List Char) : List Char :=
  ((l.dropWhile pyIsSpace).reverse.dropWhile pyIsSpace).reverse

/-- Python `.strip()` on a string. -/
def pyStrip (s : String) : String :=
  String.mk (pyStripList s.data)

/-- The value returned by `_make_request` on a success status: the empty
dict, or the body decoded by `json.loads`, or by
`XmlUtil.dict_from_xml`.  The two decoders belong to external/out-of-scope
collaborators and are embedded as tags carrying the undecoded body. -/
inductive ParsedBody where
  | emptyDict
  | jsonOf (body : String)
  | xmlOf (body : String)
  deriving DecidableEq

/-- The observable outcome of `_make_request`: a returned value, a raised
`braintree` error, a re-raised raw transport exception (wrap flag off), or
the impossible fall-through of `handle_exception` (which would leave the
code to read the unbound `status` variable). -/
inductive HttpOutcome where
  | value (v : ParsedBody)
  | raised (e : HttpError)
  | uncaught (e : TransportException)
  | unboundStatus
  deriving DecidableEq

/-- `Http._make_request`, lines 83-100 of `http.py`, with the transport
call abstracted as its result: the `try/except` around `http_do`, then
status classification, then body decoding. -/
def makeRequest (wrap_http_exceptions : Bool) (content_type : String)
    (transport : Except TransportException (Nat × String)) : HttpOutcome :=
  match transport with
  | .error e =>
    if wrap_http_exceptions then
      match handle_exception e with
      | some err => .raised err
      | none => .unboundStatus
    else
      .uncaught e
  | .ok (status, response_body) =>
    if is_error_status status then
      .raised (raise_exception_from_status status none)
    else
      if (pyStrip response_body).length = 0 then
        .value .emptyDict
      else if content_type = ContentType.Json then
        .value (.jsonOf response_body)
      else
        .value (.xmlOf response_body)

/-- Base64 alphabet character for a 6-bit value, as used by
`binascii.b2a_base64`. -/
def b64char (n : Nat) : Char :=
  if n < 26 then Char.ofNat (65 + n)
  else if n < 52 then Char.ofNat (97 + (n - 26))
  else if n < 62 then Char.ofNat (48 + (n - 52))
  else if n = 62 then '+'
  else '/'

/-- Standard base64 encoding of a byte list (bytes as `Nat` values),
with `=` padding, no line breaks. -/
def b64encode : List Nat → List Char
  | [] => []
  | [a] => [b64char (a / 4), b64char (a % 4 * 16), '=', '=']
  | [a, b] => [b64char (a / 4), b64char (a % 4 * 16 + b / 16), b64char (b % 16 * 4), '=']
  | a :: b :: c :: rest =>
    b64char (a / 4) :: b64char (a % 4 * 16 + b / 16) ::
      b64char (b % 16 * 4 + c / 64) :: b64char (c % 64) :: b64encode rest

/-- `base64.encodebytes`: encode each 57-byte chunk of the input and
append a newline after each encoded chunk. -/
def encodebytes (l : List Nat) : List Char :=
  if l = [] then []
  else b64encode (l.take 57) ++ '\n' :: encodebytes (l.drop 57)
termination_by l.length
decreasing_by
  simp only [List.length_drop]
  rename_i h
  have : l.length ≠ 0 := fun hz => h (List.length_eq_zero.mp hz)
  omega

/-- `str.encode('ascii')`: the code points of the string as bytes (the
credentials the source encodes are ASCII). -/
def strBytes (s : String) : List Nat :=
  s.data.map Char.toNat

/-- The value after `"Basic "` in `__authorization_header`:
`encodebytes(user + b":" + pass).replace(b"\n", b"").strip()`, shared
verbatim by the client-credentials and the public/private-key branches. -/
def basic_auth_value (userPart passPart : String) : String :=
  String.mk (pyStripList ((encodebytes (strBytes (userPart ++ ":" ++ passPart))).filter
    (fun c => c ≠ '\n')))

/-- Modelled from the spec: the three deployment environments
(`braintree/environment.py` is outside the embedded sources). -/
inductive EnvKind where
  | development
  | sandbox
  | production
  deriving DecidableEq

/-- Modelled from the spec: an environment is its identity plus its SSL
certificate policy; `Environment.Development` is the one whose kind is
`development`. -/
structure Environment where
  kind : EnvKind
  ssl_certificate : String
  deriving DecidableEq

/-- Modelled from the spec: the slice of the external configuration
object that `http.py` reads — URLs, credential scheme predicates and
fields, environment, and the wrap-exceptions flag. -/
structure Config where
  environment : Environment
  wrap_http_exceptions : Bool
  base_url : String
  graphql_base_url : String
  has_client_credentials : Bool
  client_id : String
  client_secret : String
  has_access_token : Bool
  access_token : String
  public_key : String
  private_key : String
  deriving DecidableEq

/-- `Http.__authorization_header`: client credentials, else access
token, else public/private key pair. -/
def authorization_header (config : Config) : String :=
  if config.has_client_credentials then
    "Basic " ++ basic_auth_value config.client_id config.client_secret
  else if config.has_access_token then
    "Bearer " ++ config.access_token
  else
    "Basic " ++ basic_auth_value config.public_key config.private_key

/-- Python `str.startswith`: a prefix test, executable by structural
recursion over the characters. -/
def pyStartsWith (s pre : String) : Bool :=
  pre.data.isPrefixOf s.data

/-- `Http.__full_path`: the path itself when it already starts with the
base URL or the GraphQL base URL, else base URL + path. -/
def full_path (config : Config) (path : String) : String :=
  if pyStartsWith path config.base_url || pyStartsWith path config.graphql_base_url then path
  else config.base_url ++ path

/-- Request parameters as a key-value mapping (its entries are opaque to
the transport layer). -/
abbrev Params := List (String × String)

/-- File payloads (opaque to the transport layer). -/
abbrev Files := List (String × String)

/-- What `Http.__request_body` can return: a plain string (the empty
string, or an XML document produced by the out-of-scope
`XmlUtil.xml_from_dict`, kept as a tag carrying its input), the `params`
argument passed through unmodified (possibly `None`), or the
`(params, files)` tuple. -/
inductive RequestBody where
  | str (s : String)
  | xmlDoc (p : Params)
  | passthrough (p : Option Params)
  | paired (p : Option Params) (f : Files)
  deriving DecidableEq

/-- `Http.__request_body`.  Note the source tests `if params` (Python
truthiness: `None` and the empty dict are both falsy) and `files == None`
— it never inspects the content type beyond the XML test. -/
def request_body (content_type : String) (params : Option Params) (files : Option Files) :
    RequestBody :=
  if content_type = ContentType.Xml then
    match params with
    | none => .str ""
    | some [] => .str ""
    | some p => .xmlDoc p
  else
    match files with
    | none => .passthrough params
    | some fs => .paired params fs

/-- The `verify` argument `Http.http_do` passes to `session.send`:
either certificate verification disabled (`verify=False`) or verification
against a certificate policy. -/
inductive VerifySetting where
  | disabled
  | certPolicy (cert : String)
  deriving DecidableEq

/-- The `Http` object: its configuration and its environment, the latter
being `environment or self.config.environment` from `__init__`. -/
structure Http where
  config : Config
  environment : Environment
  deriving DecidableEq

/-- `Http.__init__(config, environment=None)`. -/
def Http.init (config : Config) (environment : Option Environment) : Http :=
  ⟨config, environment.getD config.environment⟩

/-- The TLS-verification choice made in `Http.http_do`: `verify = False`
when `config.environment == Environment.Development`, else
`verify = self.environment.ssl_certificate`. -/
def http_do_verify (h : Http) : VerifySetting :=
  if h.config.environment.kind = EnvKind.development then .disabled
  else .certPolicy h.environment.ssl_certificate

/-- Values stored in an attributes mapping: strings or nested mappings
(all the attribute-getter machinery observes of them). -/
inductive AttrVal where
  | prim (s : String)
  | map (entries : List (String × AttrVal))

/-- An attributes mapping, as handed to the entity constructors. -/
abbrev Attributes := List (String × AttrVal)

/-- Modelled from the spec: `AddressDetails`
(`braintree/sub_merchant_account/address_details.py` is outside the
embedded sources) is a simple data holder built from an attributes
value. -/
structure AddressDetails where
  attributes : AttrVal

/-- A value bound to an attribute of an entity object: either a raw
value copied from the input attributes, or a constructed
`AddressDetails` instance. -/
inductive ObjVal where
  | raw (v : AttrVal)
  | addressDetails (d : AddressDetails)

/-- The dynamic attribute bindings of an entity object; lookups take the
most recent binding of a name. -/
abbrev ObjAttrs := List (String × ObjVal)

/-- `setattr(self, name, value)`: rebind a name (most recent binding
shadows older ones under `List.lookup`). -/
def objSet (st : ObjAttrs) (name : String) (v : ObjVal) : ObjAttrs :=
  (name, v) :: st

/-- Modelled from the spec: `AttributeGetter.__init__` (outside the
embedded sources) copies every key of the attributes mapping onto the
object as an attribute. -/
def attributeGetterInit (attributes : Attributes) : ObjAttrs :=
  attributes.map (fun kv => (kv.1, ObjVal.raw kv.2))

/-- `BusinessDetails.__init__`: the `AttributeGetter` copy, then
`self.address_details = AddressDetails(attributes.get("address", {}))`. -/
def businessDetailsInit (attributes : Attributes) : ObjAttrs :=
  objSet (attributeGetterInit attributes) "address_details"
    (.addressDetails ⟨(attributes.lookup "address").getD (.map [])⟩)

/-- Fixture: a configuration holding only an access token; the token
value ends in a newline. -/
def exCfgBearerNl : Config :=
  ⟨⟨.production, "cacert.pem"⟩, true, "https://api.example/", "https://gql.example/",
    false, "", "", true, "token-value\n", "", ""⟩

/-- Fixture: a configuration holding OAuth client credentials. -/
def exCfgCC : Config :=
  ⟨⟨.sandbox, "cacert.pem"⟩, true, "https://api.example/", "https://gql.example/",
    true, "id", "secret", false, "", "pub", "priv"⟩

/-- Fixture: a configuration holding only a public/private key pair. -/
def exCfgPaths : Config :=
  ⟨⟨.sandbox, "cacert.pem"⟩, true, "https://api.example/", "https://gql.example/",
    false, "", "", false, "", "pub", "priv"⟩

/-- Fixture: a configuration whose environment is Development. -/
def exCfgDev : Config :=
  ⟨⟨.development, "devcert.pem"⟩, true, "http://localhost:3000/", "http://graphql.localhost/",
    false, "", "", false, "", "pub", "priv"⟩

/-- Fixture: a configuration whose environment is Production. -/
def exCfgProd : Config :=
  ⟨⟨.production, "prodcert.pem"⟩, true, "https://api.example/", "https://gql.example/",
    false, "", "", false, "", "pub", "priv"⟩

/-! ### Helper lemmas about Python `strip` -/

/-- A character surviving `pyStripList` was in the original list. -/
theorem pyStripList_subset {c : Char} {l : List Char} (h : c ∈ pyStripList l) : c ∈ l := by
  unfold pyStripList at h
  rw [List.mem_reverse] at h
  have h2 : c ∈ (l.dropWhile pyIsSpace).reverse :=
    (List.dropWhile_suffix pyIsSpace).mem h
  rw [List.mem_reverse] at h2
  exact (List.dropWhile_suffix pyIsSpace).mem h2

/-- The last character of a stripped list is not whitespace. -/
theorem pyStripList_getLast_not_space {l : List Char} {c : Char}
    (h : (pyStripList l).getLast? = some c) : pyIsSpace c = false := by
  unfold pyStripList at h
  rw [List.getLast?_reverse] at h
  have h2 := List.head?_dropWhile_not pyIsSpace ((l.dropWhile pyIsSpace).reverse)
  rw [h] at h2
  exact h2

/-- The `Basic` authorization value contains no newline: the source's
`.replace(b"\n", b"")` removes every newline `encodebytes` inserted, and
`.strip()` adds none back. -/
theorem basic_auth_value_no_newline (u p : String) : '\n' ∉ (basic_auth_value u p).data := by
  intro h
  have h2 : '\n' ∈ (encodebytes (strBytes (u ++ ":" ++ p))).filter (fun c => c ≠ '\n') :=
    pyStripList_subset h
  rw [List.mem_filter] at h2
  simp at h2

/-- The `Basic` authorization value has no trailing whitespace. -/
theorem basic_auth_value_no_trailing {u p : String} {c : Char}
    (h : (basic_auth_value u p).data.getLast? = some c) : pyIsSpace c = false :=
  pyStripList_getLast_not_space h

/-! ### Claim theorems -/

/-- C1: for every HTTP status code outside {200, 201, 204, 422},
`_make_request` raises exactly the error variant of the fixed table
(401 Authentication, 403 Authorization, 404 NotFound, 408 RequestTimeout,
426 UpgradeRequired, 429 TooManyRequests, 500 Server,
503 ServiceUnavailable, 504 GatewayTimeout), and every other status
raises Unexpected with message `"Unexpected HTTP_RESPONSE "` followed by
the status code. -/
theorem claim_error_status_table (status : Nat) (body : String) (wrap : Bool) (ct : String)
    (h : is_error_status status = true) :
    makeRequest wrap ct (.ok (status, body)) = .raised (raise_exception_from_status status none) ∧
    (status = 401 → raise_exception_from_status status none = .authenticationError) ∧
    (status = 403 → raise_exception_from_status status none = .authorizationError none) ∧
    (status = 404 → raise_exception_from_status status none = .notFoundError) ∧
    (status = 408 → raise_exception_from_status status none = .requestTimeoutError) ∧
    (status = 426 → raise_exception_from_status status none = .upgradeRequiredError) ∧
    (status = 429 → raise_exception_from_status status none = .tooManyRequestsError) ∧
    (status = 500 → raise_exception_from_status status none = .serverError) ∧
    (status = 503 → raise_exception_from_status status none = .serviceUnavailableError) ∧
    (status = 504 → raise_exception_from_status status none = .gatewayTimeoutError) ∧
    (status ∉ ([401, 403, 404, 408, 426, 429, 500, 503, 504] : List Nat) →
      raise_exception_from_status status none =
        .unexpectedError (.ofString ("Unexpected HTTP_RESPONSE " ++ Nat.repr status))) := by
  refine ⟨by simp [makeRequest, h], ?_, ?_, ?_, ?_, ?_, ?_, ?_, ?_, ?_, ?_⟩
  all_goals first
    | (rintro rfl; decide)
    | (intro hn
       simp only [List.mem_cons, List.not_mem_nil, or_false, not_or] at hn
       obtain ⟨h1, h2, h3, h4, h5, h6, h7, h8, h9⟩ := hn
       simp [raise_exception_from_status, h1, h2, h3, h4, h5, h6, h7, h8, h9])

/-- C1 witness: status 409 is an error status and raises the Unexpected
variant carrying the literal status code. -/
theorem claim_error_status_table_witness :
    is_error_status 409 = true ∧
    makeRequest true ContentType.Xml (.ok (409, "conflict")) =
      .raised (raise_exception_from_status 409 none) ∧
    raise_exception_from_status 409 none =
      .unexpectedError (.ofString ("Unexpected HTTP_RESPONSE " ++ Nat.repr 409)) := by
  have h := claim_error_status_table 409 "conflict" true ContentType.Xml (by decide)
  exact ⟨by decide, h.1, h.2.2.2.2.2.2.2.2.2.2 (by decide)⟩

/-- C2: the statuses 200, 201, 204, 422 (and only these) raise nothing:
the empty mapping is returned for a blank body, otherwise the body is
decoded as JSON for the JSON content type and as XML otherwise; in
particular 422 never raises. -/
theorem claim_success_statuses (status : Nat) (body : String) (wrap : Bool) (ct : String)
    (h : status ∈ ([200, 201, 204, 422] : List Nat)) :
    is_error_status status = false ∧
    makeRequest wrap ct (.ok (status, body)) =
      .value (if (pyStrip body).length = 0 then .emptyDict
              else if ct = ContentType.Json then .jsonOf body
              else .xmlOf body) ∧
    (∀ s : Nat, is_error_status s = false → s ∈ ([200, 201, 204, 422] : List Nat)) := by
  have hfalse : is_error_status status = false := by
    simp only [List.mem_cons, List.not_mem_nil, or_false] at h
    rcases h with rfl | rfl | rfl | rfl <;> decide
  refine ⟨hfalse, ?_, ?_⟩
  · simp only [makeRequest, hfalse, Bool.false_eq_true, if_false]
    by_cases h1 : (pyStrip body).length = 0
    · simp [h1]
    · by_cases h2 : ct = ContentType.Json <;> simp [h1, h2]
  · intro s hs
    simp [is_error_status] at hs
    simp only [List.mem_cons, List.not_mem_nil, or_false]
    tauto

/-- C2 witness: a 422 response with a whitespace-only body returns the
empty mapping and raises nothing. -/
theorem claim_success_statuses_witness :
    (422 : Nat) ∈ ([200, 201, 204, 422] : List Nat) ∧
    is_error_status 422 = false ∧
    makeRequest true ContentType.Xml (.ok (422, " ")) =
      .value (if (pyStrip " ").length = 0 then .emptyDict
              else if ContentType.Xml = ContentType.Json then .jsonOf " "
              else .xmlOf " ") := by
  have h := claim_success_statuses 422 " " true ContentType.Xml (by decide)
  exact ⟨by decide, h.1, h.2.1⟩

/-- C3: when the wrap flag is false a transport exception propagates
unchanged; when it is true the exception is re-raised as the single error
variant selected by the isinstance priority chain: read-timeout,
connect-timeout, connection failure, HTTP-protocol error, other timeout,
anything else. -/
theorem claim_exception_wrapping (e : TransportException) (ct : String) :
    makeRequest false ct (.error e) = .uncaught e ∧
    (e.kind = .readTimeout → makeRequest true ct (.error e) = .raised (.readTimeoutError e)) ∧
    (e.kind = .connectTimeout →
      makeRequest true ct (.error e) = .raised (.connectTimeoutError e)) ∧
    (e.kind = .connectionError → makeRequest true ct (.error e) = .raised (.connectionError e)) ∧
    (e.kind = .httpError → makeRequest true ct (.error e) = .raised (.invalidResponseError e)) ∧
    (e.kind = .timeout → makeRequest true ct (.error e) = .raised (.timeoutError e)) ∧
    (e.kind = .other →
      makeRequest true ct (.error e) = .raised (.unexpectedError (.ofExc e))) := by
  obtain ⟨k, d⟩ := e
  refine ⟨by simp [makeRequest], ?_, ?_, ?_, ?_, ?_, ?_⟩ <;>
    (intro hk; simp only at hk; subst hk; simp [makeRequest, handle_exception, isinst])

/-- C3 witness: a read-timeout exception is re-raised as ReadTimeout when
the wrap flag is on, and propagates raw when it is off. -/
theorem claim_exception_wrapping_witness :
    (TransportException.mk .readTimeout "slow").kind = ExcKind.readTimeout ∧
    makeRequest true ContentType.Xml (.error ⟨.readTimeout, "slow"⟩) =
      .raised (.readTimeoutError ⟨.readTimeout, "slow"⟩) ∧
    makeRequest false ContentType.Xml (.error ⟨.readTimeout, "slow"⟩) =
      .uncaught ⟨.readTimeout, "slow"⟩ := by
  have h := claim_exception_wrapping ⟨.readTimeout, "slow"⟩ ContentType.Xml
  exact ⟨rfl, h.2.1 rfl, h.1⟩

/-- C9: `handle_exception` raises on every input (no branch falls
through), so with the wrap flag set `_make_request` never reaches the
status-classification step with an unbound status variable. -/
theorem claim_handle_exception_always_raises (e : TransportException) (wrap : Bool)
    (ct : String) :
    (handle_exception e).isSome = true ∧
    makeRequest wrap ct (.error e) ≠ .unboundStatus := by
  obtain ⟨k, d⟩ := e
  constructor
  · cases k <;> simp [handle_exception, isinst]
  · cases wrap <;> cases k <;> simp [makeRequest, handle_exception, isinst]

/-- C4 counterexample: the claim says every one of the three header
values has embedded newlines stripped and trailing whitespace trimmed,
but the Bearer branch performs neither: an access token ending in a
newline reaches the header verbatim. -/
theorem claim_auth_header_counterexample :
    authorization_header exCfgBearerNl = "Bearer token-value\n" ∧
    '\n' ∈ (authorization_header exCfgBearerNl).data ∧
    pyStrip (authorization_header exCfgBearerNl) ≠ authorization_header exCfgBearerNl := by
  exact ⟨by decide, by decide, by decide⟩

/-- C4 (amended): exactly one scheme produces the header, in priority
order client-credentials, access-token, key pair, with values
`Basic base64(client_id:client_secret)`, `Bearer access_token`,
`Basic base64(public_key:private_key)`; in the two Basic cases the
encoded value has every newline stripped and no trailing whitespace,
while the Bearer value is the access token unchanged. -/
theorem claim_auth_header_amended (config : Config) :
    (config.has_client_credentials = true →
      authorization_header config =
        "Basic " ++ basic_auth_value config.client_id config.client_secret) ∧
    (config.has_client_credentials = false → config.has_access_token = true →
      authorization_header config = "Bearer " ++ config.access_token) ∧
    (config.has_client_credentials = false → config.has_access_token = false →
      authorization_header config =
        "Basic " ++ basic_auth_value config.public_key config.private_key) ∧
    (∀ u p : String, '\n' ∉ (basic_auth_value u p).data) ∧
    (∀ (u p : String) (c : Char),
      (basic_auth_value u p).data.getLast? = some c → pyIsSpace c = false) := by
  refine ⟨?_, ?_, ?_, fun u p => basic_auth_value_no_newline u p,
    fun u p c hc => basic_auth_value_no_trailing hc⟩
  · intro h1
    simp [authorization_header, h1]
  · intro h1 h2
    simp [authorization_header, h1, h2]
  · intro h1 h2
    simp [authorization_header, h1, h2]

/-- C4 witness: with client credentials present the header is the Basic
value, which contains no newline. -/
theorem claim_auth_header_amended_witness :
    exCfgCC.has_client_credentials = true ∧
    authorization_header exCfgCC = "Basic " ++ basic_auth_value "id" "secret" ∧
    '\n' ∉ (basic_auth_value "id" "secret").data := by
  have h := claim_auth_header_amended exCfgCC
  exact ⟨rfl, h.1 rfl, h.2.2.2.1 "id" "secret"⟩

/-- C5 counterexample: on a 403 response `_make_request` raises the
Authorization variant with message `None` — it passes no message, so the
error does not carry the error message associated with the response. -/
theorem claim_forbidden_message_counterexample :
    makeRequest false ContentType.Xml (.ok (403, "Forbidden")) =
      .raised (.authorizationError none) ∧
    HttpError.authorizationError none ≠ .authorizationError (some "Forbidden") := by
  exact ⟨by decide, by decide⟩

/-- C5 (amended): on a 403 response the raised Authorization error's
message field is `None`, because `_make_request` calls the status mapper
without a message; `raise_exception_from_status` attaches a message to
the 403 variant only when its caller supplies one. -/
theorem claim_forbidden_message_amended (body : String) (wrap : Bool) (ct : String) :
    makeRequest wrap ct (.ok (403, body)) = .raised (.authorizationError none) ∧
    (∀ m : Option String, raise_exception_from_status 403 m = .authorizationError m) := by
  constructor
  · have h403 : is_error_status 403 = true := by decide
    have htable : raise_exception_from_status 403 none = .authorizationError none := by decide
    simp [makeRequest, h403, htable]
  · intro m
    rfl

/-- C6: the request URL is the path itself when it starts with the base
URL or the GraphQL base URL, and base URL concatenated with the path
otherwise. -/
theorem claim_full_path (config : Config) (path : String) :
    ((pyStartsWith path config.base_url || pyStartsWith path config.graphql_base_url) = true →
      full_path config path = path) ∧
    ((pyStartsWith path config.base_url || pyStartsWith path config.graphql_base_url) = false →
      full_path config path = config.base_url ++ path) := by
  constructor <;> intro h <;> simp [full_path, h]

set_option maxRecDepth 4096 in
/-- C6 witness applies the theorem at two concrete paths. -/
theorem claim_full_path_witness :
    full_path exCfgPaths "https://api.example/merchants/abc" =
      "https://api.example/merchants/abc" ∧
    full_path exCfgPaths "merchants/abc" = "https://api.example/" ++ "merchants/abc" := by
  exact ⟨(claim_full_path exCfgPaths "https://api.example/merchants/abc").1 (by decide),
    (claim_full_path exCfgPaths "merchants/abc").2 (by decide)⟩

/-- C7 counterexample: `__request_body` tests `files == None`, not the
content type, so a JSON request with files present yields the
`(params, files)` pair, not the params passed through unmodified as the
claim states for every non-XML, non-multipart-with-files case. -/
theorem claim_request_body_counterexample :
    request_body ContentType.Json (some [("a", "b")]) (some [("f", "contents")]) =
      .paired (some [("a", "b")]) [("f", "contents")] ∧
    request_body ContentType.Json (some [("a", "b")]) (some [("f", "contents")]) ≠
      .passthrough (some [("a", "b")]) := by
  exact ⟨by decide, by decide⟩

/-- C7 (amended): for the XML content type the body is the params
serialized to XML, or the empty string when params are absent or an
empty mapping; for every other content type the body is the
`(params, files)` pair whenever files are present (regardless of content
type, including JSON), and otherwise the params value unmodified with no
JSON serialization. -/
theorem claim_request_body_amended (content_type : String) (params : Option Params)
    (files : Option Files) :
    (content_type = ContentType.Xml →
      ((params = none ∨ params = some []) →
        request_body content_type params files = .str "") ∧
      (∀ k v rest, params = some ((k, v) :: rest) →
        request_body content_type params files = .xmlDoc ((k, v) :: rest))) ∧
    (content_type ≠ ContentType.Xml →
      (files = none → request_body content_type params files = .passthrough params) ∧
      (∀ fs, files = some fs → request_body content_type params files = .paired params fs)) := by
  constructor
  · rintro rfl
    constructor
    · rintro (rfl | rfl) <;> simp [request_body]
    · rintro k v rest rfl
      simp [request_body]
  · intro hct
    constructor
    · rintro rfl
      simp [request_body, hct]
    · rintro fs rfl
      simp [request_body, hct]

/-- C7 witness: XML with non-empty params serializes them; JSON without
files passes params through unmodified. -/
theorem claim_request_body_amended_witness :
    request_body ContentType.Xml (some [("key", "val")]) none = .xmlDoc [("key", "val")] ∧
    ContentType.Json ≠ ContentType.Xml ∧
    request_body ContentType.Json (some [("key", "val")]) none =
      .passthrough (some [("key", "val")]) := by
  have h1 := claim_request_body_amended ContentType.Xml (some [("key", "val")])
    (none : Option Files)
  have h2 := claim_request_body_amended ContentType.Json (some [("key", "val")])
    (none : Option Files)
  exact ⟨(h1.1 rfl).2 "key" "val" [] rfl, by decide, (h2.2 (by decide)).1 rfl⟩

/-- C8: TLS certificate verification is disabled exactly when the
configured environment is Development; otherwise the request is verified
against the instance environment's certificate policy. -/
theorem claim_tls_verification (config : Config) (envOverride : Option Environment) :
    (http_do_verify (Http.init config envOverride) = .disabled ↔
      config.environment.kind = EnvKind.development) ∧
    (config.environment.kind ≠ EnvKind.development →
      http_do_verify (Http.init config envOverride) =
        .certPolicy (Http.init config envOverride).environment.ssl_certificate) := by
  by_cases h : config.environment.kind = EnvKind.development <;>
    simp [http_do_verify, Http.init, h]

/-- C8 witness: a Development configuration disables verification; a
Production configuration verifies with its certificate policy. -/
theorem claim_tls_verification_witness :
    http_do_verify (Http.init exCfgDev none) = .disabled ∧
    exCfgProd.environment.kind ≠ EnvKind.development ∧
    http_do_verify (Http.init exCfgProd none) =
      .certPolicy (Http.init exCfgProd none).environment.ssl_certificate := by
  have h1 := claim_tls_verification exCfgDev none
  have h2 := claim_tls_verification exCfgProd none
  exact ⟨h1.1.mpr rfl, by decide, h2.2 (by decide)⟩

/-- C10: `BusinessDetails.__init__` always rebinds `address_details` to
an `AddressDetails` built from the `"address"` value (or the empty
mapping when absent), overwriting any `address_details` entry the
attribute-getter base class copied from the input attributes. -/
theorem claim_business_details_address (attributes : Attributes) :
    (businessDetailsInit attributes).lookup "address_details" =
      some (.addressDetails ⟨(attributes.lookup "address").getD (.map [])⟩) ∧
    (businessDetailsInit (("address_details", AttrVal.prim "stale") :: attributes)).lookup
        "address_details" =
      some (.addressDetails
        ⟨(((("address_details", AttrVal.prim "stale") :: attributes)).lookup "address").getD
          (.map [])⟩) := by
  constructor <;> simp [businessDetailsInit, objSet, List.lookup]

end Braintree
